import Mathlib

/-!
Verification of the Billettlyst presentation layer: a shallow embedding of the
Category page, the EventCard component and the EventDetails page, together with
proofs about their rendering, state handling and side effects.

JavaScript optional fields are modelled with `Option`; JavaScript truthiness of
string-or-undefined values (used by `||`, `&&`, ternaries and `filter(Boolean)`)
is modelled by `jsBoolean`.
-/

/-- Truthiness of a JavaScript string-or-undefined value: `undefined` and the
empty string are falsy, every other string is truthy. -/
def jsBoolean : Option String → Bool
  | none => false
  | some s => if s = "" then false else true

/-- An image record from the events API: url, optional aspect ratio tag and
pixel width. -/
structure Image where
  url : String
  ratio : Option String
  width : Nat
deriving DecidableEq, Repr

/-- A named sub-record (city, country, segment, genre, subGenre) whose name
field may be absent. -/
structure NamedRef where
  name : Option String
deriving DecidableEq, Repr

/-- A classification attached to an event or attraction. -/
structure Classification where
  segment : Option NamedRef
  genre : Option NamedRef
  subGenre : Option NamedRef
deriving DecidableEq, Repr

/-- A venue entity from the events API (the fields the components read). -/
structure Venue where
  id : String
  name : String
  city : Option NamedRef
  country : Option NamedRef
  images : Option (List Image)
deriving DecidableEq, Repr

/-- An attraction entity from the events API (the fields the components read). -/
structure Attraction where
  id : String
  name : String
  images : Option (List Image)
  classifications : Option (List Classification)
deriving DecidableEq, Repr

/-- The embedded sub-object of an event. -/
structure EventEmbedded where
  venues : Option (List Venue)
  attractions : Option (List Attraction)
deriving DecidableEq, Repr

/-- The start sub-object of an event's dates. -/
structure DateStart where
  localDate : Option String
  localTime : Option String
deriving DecidableEq, Repr

/-- The dates sub-object of an event. -/
structure EventDates where
  start : Option DateStart
deriving DecidableEq, Repr

/-- An event entity from the events API (the fields the components read). -/
structure Event where
  id : String
  name : String
  images : Option (List Image)
  dates : Option EventDates
  embedded : Option EventEmbedded
  classifications : Option (List Classification)
deriving DecidableEq, Repr

/-- The placeholder image URL used by every card when an entity has no images. -/
def placeholderUrl : String := "https://via.placeholder.com/400x225?text=Ingen+Bilde"

/-- The placeholder image object built inline by the card components; only its
url field is ever read. -/
def placeholderImage : Image := { url := placeholderUrl, ratio := none, width := 0 }

/-- Modelled from the spec: the repository snapshot does not include
src/utils/formatDate, which the spec describes only as date formatting. It is
modelled as an unspecified total string transformation (here the identity);
no claim depends on its output beyond totality. -/
def formatDate (d : String) : String := d

/-- Image chosen by EventCard: the first image with ratio 16_9 and width
greater than 500, else the first image, else the placeholder. -/
def eventCardImage (e : Event) : Image :=
  (((e.images.getD []).find? (fun img => img.ratio == some "16_9" && decide (500 < img.width)))
    <|> (e.images.getD []).head?).getD placeholderImage

/-- Image chosen by the Category page's attraction card: the first image with
ratio 16_9, else the first image, else the placeholder. -/
def attractionImage (a : Attraction) : Image :=
  (((a.images.getD []).find? (fun img => img.ratio == some "16_9"))
    <|> (a.images.getD []).head?).getD placeholderImage

/-- Image chosen by the Category page's venue card: the first image with ratio
16_9, else the first image, else the placeholder. -/
def venueImage (v : Venue) : Image :=
  (((v.images.getD []).find? (fun img => img.ratio == some "16_9"))
    <|> (v.images.getD []).head?).getD placeholderImage

/-- Hero image chosen by the EventDetails page: the first image with ratio 16_9
and width greater than 800, else the first image with width greater than 800,
else the first image; possibly none. -/
def heroImage (e : Event) : Option Image :=
  ((e.images.getD []).find? (fun img => img.ratio == some "16_9" && decide (800 < img.width)))
    <|> ((e.images.getD []).find? (fun img => decide (800 < img.width)))
    <|> (e.images.getD []).head?

/-- An item passed to WishlistButton. -/
structure WishlistItem where
  id : String
  type : String
  name : String
  image : String
deriving DecidableEq, Repr

/-- What EventCard renders for one event. -/
structure EventCardView where
  imageUrl : String
  title : String
  dateText : String
  locationText : String
  wishlistItem : Option WishlistItem
  linkTo : Option String
deriving DecidableEq, Repr

/-- EventCard: image selection, date and location fallbacks, optional wishlist
button and optional link wrapper. -/
def renderEventCard (e : Event) (isClickable showWishlist : Bool) : EventCardView :=
  let image := eventCardImage e
  let venue := (e.embedded.bind EventEmbedded.venues).bind List.head?
  let cityName := (venue.bind Venue.city).bind NamedRef.name
  let countryName := (venue.bind Venue.country).bind NamedRef.name
  let localDate := (e.dates.bind EventDates.start).bind DateStart.localDate
  { imageUrl := image.url
    title := e.name
    dateText :=
      if jsBoolean localDate then formatDate (localDate.getD "") else "Dato ikke tilgjengelig"
    locationText :=
      if jsBoolean cityName && jsBoolean countryName then
        cityName.getD "" ++ ", " ++ countryName.getD ""
      else "Ukjent sted"
    wishlistItem :=
      if showWishlist then
        some { id := e.id, type := "event", name := e.name, image := image.url }
      else none
    linkTo := if isClickable then some ("/event/" ++ e.id) else none }

/-- What the Category page renders for one attraction. -/
structure AttractionCardView where
  wishlistItem : WishlistItem
  imageUrl : String
  title : String
  genreText : String
deriving DecidableEq, Repr

/-- Category.renderAttraction: image selection, genre fallback and wishlist
item. -/
def renderAttraction (a : Attraction) : AttractionCardView :=
  let image := attractionImage a
  let genreName := ((a.classifications.getD []).head?.bind Classification.genre).bind NamedRef.name
  { wishlistItem := { id := a.id, type := "attraction", name := a.name, image := image.url }
    imageUrl := image.url
    title := a.name
    genreText := if jsBoolean genreName then genreName.getD "" else "Ukjent sjanger" }

/-- What the Category page renders for one venue. -/
structure VenueCardView where
  wishlistItem : WishlistItem
  imageUrl : String
  title : String
  locationText : String
deriving DecidableEq, Repr

/-- Category.renderVenue: returns none (the card is omitted) when the venue has
no city or no country; otherwise renders the card. A missing name inside a
present city or country renders as the string undefined, mirroring JavaScript
template-literal interpolation. -/
def renderVenue (v : Venue) : Option VenueCardView :=
  if v.city.isNone || v.country.isNone then none
  else
    let image := venueImage v
    some { wishlistItem := { id := v.id, type := "venue", name := v.name, image := image.url }
           imageUrl := image.url
           title := v.name
           locationText := ((v.city.bind NamedRef.name).getD "undefined") ++ ", " ++
                           ((v.country.bind NamedRef.name).getD "undefined") }

/-- The category slug translations on the Category page. -/
def categoryTranslations : String → Option String := fun s =>
  if s = "music" then some "Musikk"
  else if s = "sports" then some "Sport"
  else if s = "arts" then some "Teater/Show"
  else if s = "family" then some "Familie"
  else none

/-- Display name of a category: the translation of the route parameter
(defaulting to music when the parameter is falsy), else Kategori. -/
def categoryName (t : Option String) : String :=
  let slug := if jsBoolean t then t.getD "" else "music"
  match categoryTranslations slug with
  | some n => if n = "" then "Kategori" else n
  | none => "Kategori"

/-- Local UI state of the Category page. -/
structure CategoryState where
  attractions : List Attraction
  events : List Event
  venues : List Venue
  isLoading : Bool
deriving DecidableEq, Repr

/-- The payload resolved by fetchCategoryContent or fetchSuggest. -/
structure CategoryContent where
  attractions : List Attraction
  events : List Event
  venues : List Venue
deriving DecidableEq, Repr

/-- The browser document state the two pages touch: the title string and
whether the title element exists and carries the data-default attribute. -/
structure Document where
  title : String
  titleHasDataDefault : Bool
deriving DecidableEq, Repr

/-- Category.loadCategoryContent, big-step: given the route parameter and the
settled fetch result, the effect on component state, document and console log.
When the route parameter is falsy the effect returns immediately; on success
the three lists are replaced and the document title set; on failure the error
is logged; either way the loading flag ends cleared. -/
def loadCategoryContent (type : Option String) (result : Except String CategoryContent)
    (s : CategoryState) (doc : Document) (log : List String) :
    CategoryState × Document × List String :=
  if jsBoolean type then
    match result with
    | .ok content =>
        ({ attractions := content.attractions, events := content.events,
           venues := content.venues, isLoading := false },
         { doc with title := categoryName type ++ " | Billettlyst" }, log)
    | .error msg =>
        ({ s with isLoading := false }, doc,
         log ++ ["Error loading category content: " ++ msg])
  else (s, doc, log)

/-- Outcome of Category.handleSearch: the resulting component state, console
log, and whether a fetch was performed at all. -/
structure SearchOutcome where
  state : CategoryState
  log : List String
  fetched : Bool
deriving DecidableEq, Repr

/-- The JavaScript string trim: drop leading and trailing whitespace. -/
def jsTrim (s : String) : String :=
  ⟨((s.data.dropWhile Char.isWhitespace).reverse.dropWhile Char.isWhitespace).reverse⟩

/-- Category.handleSearch, big-step: returns immediately (no fetch) when the
trimmed query is empty; otherwise replaces the lists on success or logs on
failure, clearing the loading flag either way. -/
def handleSearch (searchQuery : String) (result : Except String CategoryContent)
    (s : CategoryState) (log : List String) : SearchOutcome :=
  if jsTrim searchQuery = "" then { state := s, log := log, fetched := false }
  else
    match result with
    | .ok r =>
        { state := { attractions := r.attractions, events := r.events,
                     venues := r.venues, isLoading := false },
          log := log, fetched := true }
    | .error msg =>
        { state := { s with isLoading := false },
          log := log ++ ["Error searching: " ++ msg], fetched := true }

/-- Local UI state of the EventDetails page. -/
structure EventDetailsState where
  event : Option Event
  isLoading : Bool
deriving DecidableEq, Repr

/-- EventDetails.loadEvent, big-step: given the route id and the settled fetch
result, the effect on component state, document and console log. The fetched
event (possibly null) is stored and the title set on success; the error is
logged on failure; either way the loading flag ends cleared. -/
def loadEvent (id : Option String) (result : Except String (Option Event))
    (s : EventDetailsState) (doc : Document) (log : List String) :
    EventDetailsState × Document × List String :=
  if jsBoolean id then
    match result with
    | .ok eventData =>
        ({ event := eventData, isLoading := false },
         { doc with title :=
             match eventData with
             | some ev => ev.name ++ " | Billettlyst"
             | none => "Arrangement | Billettlyst" }, log)
    | .error msg =>
        ({ s with isLoading := false }, doc,
         log ++ ["Error loading event details: " ++ msg])
  else (s, doc, log)

/-- The unmount cleanup shared by both pages: when the title element carries
the data-default attribute, reset the title to the site default. -/
def unmountTitleCleanup (doc : Document) : Document :=
  if doc.titleHasDataDefault then
    { doc with title := "Billettlyst | Din billett til opplevelser" }
  else doc

/-- Names contributed by one classification on the EventDetails page: segment,
genre and sub-genre names, possibly absent. -/
def classificationNames (c : Classification) : List (Option String) :=
  [c.segment.bind NamedRef.name, c.genre.bind NamedRef.name, c.subGenre.bind NamedRef.name]

/-- The JavaScript first-occurrence de-duplication filter: keep an element when
its index equals the first index at which its value occurs in the list. -/
def firstOccurrences (l : List String) : List String :=
  (l.enum.filter (fun p => l.indexOf p.2 == p.1)).map Prod.snd

/-- The genre list computed by EventDetails: segment, genre and sub-genre names
of all classifications, flattened, falsy entries dropped, then de-duplicated by
first occurrence. -/
def eventGenres (e : Event) : List String :=
  firstOccurrences
    ((((e.classifications.getD []).map classificationNames).flatten.filter jsBoolean).map
      (fun o => o.getD ""))

/-- Content of the detail sections rendered by EventDetails for a found event. -/
structure EventDetailsContent where
  name : String
  heroImage : Option Image
  genres : List String
  formattedDate : String
deriving DecidableEq, Repr

/-- The three top-level views of the EventDetails page. -/
inductive EventDetailsView where
  | loadingSkeleton : EventDetailsView
  | notFound : (heading : String) → (backLink : String) → EventDetailsView
  | details : EventDetailsContent → EventDetailsView
deriving DecidableEq, Repr

/-- EventDetails render: the loading skeleton while loading, the not-found view
when no event is held, else the detail sections. -/
def renderEventDetails (s : EventDetailsState) : EventDetailsView :=
  if s.isLoading then .loadingSkeleton
  else
    match s.event with
    | none => .notFound "Arrangementet ble ikke funnet" "/"
    | some e =>
        .details
          { name := e.name
            heroImage := heroImage e
            genres := eventGenres e
            formattedDate :=
              if jsBoolean ((e.dates.bind EventDates.start).bind DateStart.localDate) then
                formatDate (((e.dates.bind EventDates.start).bind DateStart.localDate).getD "")
              else "Dato ikke tilgjengelig" }

/-- Claimed selection rule for the EventCard image, written after the claim
text: the first image with ratio 16_9 and width greater than 500, else the
first image, else the placeholder. -/
def claimedCardImage (images : List Image) : Image :=
  match images.filter (fun img => img.ratio == some "16_9" && decide (500 < img.width)) with
  | img :: _ => img
  | [] =>
    match images with
    | img :: _ => img
    | [] => placeholderImage

/-- Claimed selection rule for the EventDetails hero image, written after the
claim text: the first image with ratio 16_9 and width greater than 800, else
the first image with width greater than 800, else the first image, possibly
none. -/
def claimedHeroImage (images : List Image) : Option Image :=
  match images.filter (fun img => img.ratio == some "16_9" && decide (800 < img.width)) with
  | img :: _ => some img
  | [] =>
    match images.filter (fun img => decide (800 < img.width)) with
    | img :: _ => some img
    | [] => images.head?

theorem find?_eq_head?_filter {α : Type} (p : α → Bool) (l : List α) :
    l.find? p = (l.filter p).head? := by
  induction l with
  | nil => rfl
  | cons a t ih =>
    by_cases h : p a
    · rw [List.find?_cons_of_pos _ h, List.filter_cons_of_pos h, List.head?_cons]
    · rw [List.find?_cons_of_neg _ h, List.filter_cons_of_neg h, ih]

theorem firstOccurrences_nodup (l : List String) : (firstOccurrences l).Nodup := by
  have henum : l.enum.Nodup := (List.nodup_enum_map_fst l).of_map
  have hf : (l.enum.filter (fun p => l.indexOf p.2 == p.1)).Nodup := henum.filter _
  refine hf.map_on ?_
  intro x hx y hy hxy
  rw [List.mem_filter] at hx hy
  have ex : l.indexOf x.2 = x.1 := eq_of_beq hx.2
  have ey : l.indexOf y.2 = y.1 := eq_of_beq hy.2
  have h1 : x.1 = y.1 := by rw [← ex, ← ey, hxy]
  exact Prod.ext h1 hxy

/-- Sample event with every optional field absent. -/
def sampleEvent : Event :=
  { id := "e1", name := "Konsert i parken", images := none, dates := none,
    embedded := none, classifications := none }

/-- Sample attraction with every optional field absent. -/
def sampleAttraction : Attraction :=
  { id := "a1", name := "Artist", images := none, classifications := none }

/-- Sample venue missing its city. -/
def sampleVenueNoCity : Venue :=
  { id := "v1", name := "Oslo Spektrum", city := none,
    country := some { name := some "Norge" }, images := none }

/-- Sample venue with city and country but no images. -/
def sampleVenueFull : Venue :=
  { id := "v2", name := "Royal Albert Hall", city := some { name := some "London" },
    country := some { name := some "UK" }, images := none }

/-- The card the Category page renders for sampleVenueFull. -/
def sampleVenueCard : VenueCardView :=
  { wishlistItem := { id := "v2", type := "venue", name := "Royal Albert Hall",
                      image := placeholderUrl },
    imageUrl := placeholderUrl, title := "Royal Albert Hall",
    locationText := "London, UK" }

/-- Sample document state. -/
def sampleDoc : Document := { title := "Billettlyst", titleHasDataDefault := true }

/-- Claim C1 fails as stated: a failing fetch does not reset the result lists
to an empty result set - after an earlier successful fetch the state still
holds the stale events. -/
theorem category_fetch_failure_keeps_stale_results :
    (loadCategoryContent (some "music") (Except.error "nettverksfeil")
        { attractions := [], events := [sampleEvent], venues := [], isLoading := true }
        sampleDoc []).1.events ≠ [] := by
  decide

/-- Claim C1 (amended): when a fetch fails on either page, the error is caught
and appended to the console log, the loading flag is cleared, the document is
untouched, and the result-set state is otherwise left unchanged - so it holds
the empty result set (empty lists, null event) exactly when no earlier fetch
had populated it, as on the initial load. -/
theorem fetch_failure_logged_state_unchanged (t i : Option String)
    (ht : jsBoolean t = true) (hi : jsBoolean i = true) (msg : String)
    (sc : CategoryState) (se : EventDetailsState) (doc : Document) (log : List String) :
    loadCategoryContent t (Except.error msg) sc doc log
      = ({ sc with isLoading := false }, doc,
         log ++ ["Error loading category content: " ++ msg]) ∧
    loadEvent i (Except.error msg) se doc log
      = ({ se with isLoading := false }, doc,
         log ++ ["Error loading event details: " ++ msg]) := by
  constructor
  · simp [loadCategoryContent, ht]
  · simp [loadEvent, hi]

theorem fetch_failure_logged_state_unchanged_witness :
    loadCategoryContent (some "music") (Except.error "feil")
        { attractions := [], events := [], venues := [], isLoading := true } sampleDoc []
      = ({ attractions := [], events := [], venues := [], isLoading := false }, sampleDoc,
         ["Error loading category content: feil"]) ∧
    loadEvent (some "e1") (Except.error "feil") { event := none, isLoading := true } sampleDoc []
      = ({ event := none, isLoading := false }, sampleDoc,
         ["Error loading event details: feil"]) :=
  fetch_failure_logged_state_unchanged (some "music") (some "e1") (by decide) (by decide)
    "feil" _ _ sampleDoc []

/-- Claim C2: submitting the Category search form with a query whose trimmed
text is empty performs no fetch and leaves the component state and log
unchanged. -/
theorem empty_search_query_no_fetch (q : String) (h : jsTrim q = "")
    (result : Except String CategoryContent) (s : CategoryState) (log : List String) :
    handleSearch q result s log = { state := s, log := log, fetched := false } := by
  simp [handleSearch, h]

theorem empty_search_query_no_fetch_witness :
    handleSearch "   " (Except.ok { attractions := [], events := [sampleEvent], venues := [] })
        { attractions := [sampleAttraction], events := [], venues := [], isLoading := false } []
      = { state := { attractions := [sampleAttraction], events := [], venues := [],
                     isLoading := false },
          log := [], fetched := false } :=
  empty_search_query_no_fetch "   " (by decide) _ _ []

/-- Claim C3: EventCard renders the documented defaults for missing optional
fields: the placeholder image URL when the event has no images, Dato ikke
tilgjengelig when dates.start.localDate is absent, and Ukjent sted when the
first embedded venue's city name or country name is absent. -/
theorem eventcard_missing_field_defaults (e : Event) (b w : Bool) :
    (e.images = none ∨ e.images = some [] →
      (renderEventCard e b w).imageUrl = placeholderUrl) ∧
    ((e.dates.bind EventDates.start).bind DateStart.localDate = none →
      (renderEventCard e b w).dateText = "Dato ikke tilgjengelig") ∧
    ((((((e.embedded.bind EventEmbedded.venues).bind List.head?).bind Venue.city).bind
          NamedRef.name = none) ∨
      ((((e.embedded.bind EventEmbedded.venues).bind List.head?).bind Venue.country).bind
          NamedRef.name = none)) →
      (renderEventCard e b w).locationText = "Ukjent sted") := by
  refine ⟨?_, ?_, ?_⟩
  · rintro (h | h) <;>
      simp [renderEventCard, eventCardImage, h, placeholderImage, placeholderUrl]
  · intro h
    simp [renderEventCard, h, jsBoolean]
  · rintro (h | h) <;> simp [renderEventCard, h, jsBoolean]

theorem eventcard_missing_field_defaults_witness :
    (renderEventCard sampleEvent true false).imageUrl = placeholderUrl ∧
    (renderEventCard sampleEvent true false).dateText = "Dato ikke tilgjengelig" ∧
    (renderEventCard sampleEvent true false).locationText = "Ukjent sted" := by
  obtain ⟨h1, h2, h3⟩ := eventcard_missing_field_defaults sampleEvent true false
  exact ⟨h1 (Or.inl rfl), h2 rfl, h3 (Or.inl rfl)⟩

/-- Claim C4 fails as stated: a venue missing its city is not rendered with a
fallback value - Category.renderVenue omits the card entirely. -/
theorem venue_missing_city_card_omitted : renderVenue sampleVenueNoCity = none := by rfl

/-- Claim C4 (amended): the Category page's venue render path renders a card
with the placeholder image URL when a venue that has a city and a country has
no images, but a venue missing its city or its country is omitted (renderVenue
returns none) rather than rendered with a fallback value. -/
theorem venue_render_fallback_and_guard (v : Venue) :
    (v.city = none ∨ v.country = none → renderVenue v = none) ∧
    (v.city.isSome → v.country.isSome → v.images = none ∨ v.images = some [] →
      ∃ card, renderVenue v = some card ∧ card.imageUrl = placeholderUrl) := by
  constructor
  · rintro (h | h) <;> simp [renderVenue, h]
  · intro hc hcn himg
    obtain ⟨c, hcEq⟩ := Option.isSome_iff_exists.mp hc
    obtain ⟨cn, hcnEq⟩ := Option.isSome_iff_exists.mp hcn
    have himage : venueImage v = placeholderImage := by
      rcases himg with h | h <;> simp [venueImage, h]
    refine ⟨{ wishlistItem := { id := v.id, type := "venue", name := v.name,
                                image := (venueImage v).url },
              imageUrl := (venueImage v).url, title := v.name,
              locationText := ((v.city.bind NamedRef.name).getD "undefined") ++ ", " ++
                              ((v.country.bind NamedRef.name).getD "undefined") }, ?_, ?_⟩
    · simp [renderVenue, hcEq, hcnEq]
    · simp [himage, placeholderImage]

theorem venue_render_fallback_and_guard_witness :
    renderVenue sampleVenueNoCity = none ∧
    ∃ card, renderVenue sampleVenueFull = some card ∧ card.imageUrl = placeholderUrl :=
  ⟨(venue_render_fallback_and_guard sampleVenueNoCity).1 (Or.inl rfl),
   (venue_render_fallback_and_guard sampleVenueFull).2 rfl rfl (Or.inl rfl)⟩

/-- Claim C5: the Category attraction card shows Ukjent sjanger when the first
classification's genre name is absent, and the placeholder image URL when the
attraction has no images. -/
theorem attraction_missing_field_defaults (a : Attraction) :
    (((a.classifications.getD []).head?.bind Classification.genre).bind NamedRef.name = none →
      (renderAttraction a).genreText = "Ukjent sjanger") ∧
    (a.images = none ∨ a.images = some [] →
      (renderAttraction a).imageUrl = placeholderUrl) := by
  constructor
  · intro h
    simp [renderAttraction, h, jsBoolean]
  · rintro (h | h) <;>
      simp [renderAttraction, attractionImage, h, placeholderImage, placeholderUrl]

theorem attraction_missing_field_defaults_witness :
    (renderAttraction sampleAttraction).genreText = "Ukjent sjanger" ∧
    (renderAttraction sampleAttraction).imageUrl = placeholderUrl := by
  obtain ⟨h1, h2⟩ := attraction_missing_field_defaults sampleAttraction
  exact ⟨h1 rfl, h2 (Or.inl rfl)⟩

/-- Claim C6: the genre list computed on the event detail page (segment, genre
and sub-genre names flattened from all classifications, absent names dropped)
contains no duplicate entries. -/
theorem event_detail_genres_nodup (e : Event) : (eventGenres e).Nodup :=
  firstOccurrences_nodup _

/-- Claim C7: every item passed to WishlistButton has exactly the shape id,
type, name, image, with the type tag matching the entity kind, id and name
taken from the entity, and image equal to the URL selected for the card; the
EventCard passes an item only when showWishlist is set. -/
theorem wishlist_item_shape (e : Event) (a : Attraction) (v : Venue) (b : Bool) :
    (renderEventCard e b true).wishlistItem
        = some { id := e.id, type := "event", name := e.name,
                 image := (renderEventCard e b true).imageUrl } ∧
    (renderEventCard e b false).wishlistItem = none ∧
    (renderAttraction a).wishlistItem
        = { id := a.id, type := "attraction", name := a.name,
            image := (renderAttraction a).imageUrl } ∧
    (∀ card, renderVenue v = some card →
      card.wishlistItem
        = { id := v.id, type := "venue", name := v.name, image := card.imageUrl }) := by
  refine ⟨rfl, rfl, rfl, ?_⟩
  intro card hcard
  unfold renderVenue at hcard
  by_cases h : v.city.isNone || v.country.isNone
  · rw [if_pos h] at hcard
    exact absurd hcard (by simp)
  · rw [if_neg h] at hcard
    cases Option.some.inj hcard
    rfl

theorem wishlist_item_shape_witness :
    sampleVenueCard.wishlistItem
      = { id := sampleVenueFull.id, type := "venue", name := sampleVenueFull.name,
          image := sampleVenueCard.imageUrl } :=
  (wishlist_item_shape sampleEvent sampleAttraction sampleVenueFull true).2.2.2
    sampleVenueCard (by rfl)

/-- Claim C8: after a successful fetch the Category page sets the document
title to the category name followed by | Billettlyst, and the EventDetails page
sets it to the event name followed by | Billettlyst when the event is found and
to Arrangement | Billettlyst otherwise; these load effects, for any fetch
result, and the unmount cleanup modify no document state other than the title. -/
theorem document_title_mutation (t i : Option String)
    (ht : jsBoolean t = true) (hi : jsBoolean i = true)
    (content : CategoryContent) (ev : Event)
    (sc : CategoryState) (se : EventDetailsState) (doc : Document) (log : List String) :
    (loadCategoryContent t (Except.ok content) sc doc log).2.1.title
        = categoryName t ++ " | Billettlyst" ∧
    (loadEvent i (Except.ok (some ev)) se doc log).2.1.title = ev.name ++ " | Billettlyst" ∧
    (loadEvent i (Except.ok none) se doc log).2.1.title = "Arrangement | Billettlyst" ∧
    (∀ r : Except String CategoryContent,
      (loadCategoryContent t r sc doc log).2.1.titleHasDataDefault
        = doc.titleHasDataDefault) ∧
    (∀ r : Except String (Option Event),
      (loadEvent i r se doc log).2.1.titleHasDataDefault = doc.titleHasDataDefault) ∧
    (unmountTitleCleanup doc).titleHasDataDefault = doc.titleHasDataDefault := by
  refine ⟨?_, ?_, ?_, ?_, ?_, ?_⟩
  · simp [loadCategoryContent, ht]
  · simp [loadEvent, hi]
  · simp [loadEvent, hi]
  · intro r
    cases r <;> simp [loadCategoryContent, ht]
  · intro r
    cases r <;> simp [loadEvent, hi]
  · unfold unmountTitleCleanup
    by_cases h : doc.titleHasDataDefault <;> simp [h]

theorem document_title_mutation_witness :
    (loadCategoryContent (some "music")
        (Except.ok { attractions := [], events := [], venues := [] })
        { attractions := [], events := [], venues := [], isLoading := true }
        sampleDoc []).2.1.title = "Musikk | Billettlyst" ∧
    (loadEvent (some "e1") (Except.ok (some sampleEvent))
        { event := none, isLoading := true } sampleDoc []).2.1.title
      = "Konsert i parken | Billettlyst" := by
  obtain ⟨h1, h2, -, -, -, -⟩ :=
    document_title_mutation (some "music") (some "e1") (by decide) (by decide)
      { attractions := [], events := [], venues := [] } sampleEvent
      { attractions := [], events := [], venues := [], isLoading := true }
      { event := none, isLoading := true } sampleDoc []
  exact ⟨h1.trans (by decide), h2.trans (by decide)⟩

/-- Claim C9: image selection is deterministic with a fixed preference order:
EventCard takes the first image with ratio 16_9 and width greater than 500,
else the first image, else the placeholder; the detail hero takes the first
image with ratio 16_9 and width greater than 800, else the first image with
width greater than 800, else the first image, and is none exactly when the
event has no images. -/
theorem image_selection_preference_order (e : Event) :
    eventCardImage e = claimedCardImage (e.images.getD []) ∧
    heroImage e = claimedHeroImage (e.images.getD []) ∧
    (heroImage e = none ↔ e.images.getD [] = []) := by
  have horelse : ∀ (x y : Option Image) (z : Image), (x <|> (y <|> some z)) ≠ none := by
    intro x y z
    cases x <;> cases y <;> simp [Option.orElse]
  have h1 : ∀ (l : List Image),
      ((l.find? (fun img => img.ratio == some "16_9" && decide (500 < img.width)))
        <|> l.head?).getD placeholderImage = claimedCardImage l := by
    intro l
    rw [find?_eq_head?_filter]
    unfold claimedCardImage
    cases hf : l.filter (fun img => img.ratio == some "16_9" && decide (500 < img.width)) with
    | nil =>
      cases l with
      | nil => rfl
      | cons a tl => simp
    | cons a tl => simp
  have h2 : ∀ (l : List Image),
      ((l.find? (fun img => img.ratio == some "16_9" && decide (800 < img.width)))
        <|> ((l.find? (fun img => decide (800 < img.width))) <|> l.head?))
        = claimedHeroImage l := by
    intro l
    rw [find?_eq_head?_filter, find?_eq_head?_filter]
    unfold claimedHeroImage
    cases hf1 : l.filter (fun img => img.ratio == some "16_9" && decide (800 < img.width)) with
    | cons a tl => simp
    | nil =>
      cases hf2 : l.filter (fun img => decide (800 < img.width)) with
      | cons a tl => simp
      | nil => cases l <;> simp
  have h3 : ∀ (l : List Image),
      ((l.find? (fun img => img.ratio == some "16_9" && decide (800 < img.width)))
        <|> ((l.find? (fun img => decide (800 < img.width))) <|> l.head?)) = none ↔ l = [] := by
    intro l
    cases l with
    | nil => simp
    | cons a tl =>
      simp only [List.head?_cons]
      constructor
      · intro h
        exact absurd h (horelse _ _ _)
      · intro h
        exact absurd h (List.cons_ne_nil a tl)
  exact ⟨h1 (e.images.getD []), h2 (e.images.getD []), h3 (e.images.getD [])⟩

/-- Claim C10: when fetchEventById resolves to a null or absent event, the
EventDetails page clears loading and renders the not-found view with its
heading and a link back to the front page, and renders none of the event
detail sections. -/
theorem null_event_renders_not_found (i : String) (hi : i ≠ "")
    (s : EventDetailsState) (doc : Document) (log : List String) :
    renderEventDetails (loadEvent (some i) (Except.ok none) s doc log).1
        = EventDetailsView.notFound "Arrangementet ble ikke funnet" "/" ∧
    ∀ c, renderEventDetails (loadEvent (some i) (Except.ok none) s doc log).1
        ≠ EventDetailsView.details c := by
  have hstate : (loadEvent (some i) (Except.ok none) s doc log).1
      = { event := none, isLoading := false } := by
    simp [loadEvent, jsBoolean, hi]
  rw [hstate]
  refine ⟨rfl, ?_⟩
  intro c h
  exact EventDetailsView.noConfusion h

theorem null_event_renders_not_found_witness :
    renderEventDetails (loadEvent (some "e404") (Except.ok none)
        { event := none, isLoading := true } sampleDoc []).1
      = EventDetailsView.notFound "Arrangementet ble ikke funnet" "/" :=
  (null_event_renders_not_found "e404" (by decide)
    { event := none, isLoading := true } sampleDoc []).1
